import Mathlib

/-!
Shallow embedding of `libs/hwui/DeferredLayerUpdater.cpp` (class
`android::uirenderer::DeferredLayerUpdater`).

The class is a deferred mutation buffer for a GPU-backed render layer: its
mutators accumulate pending state, and `apply()` resolves that state at a
synchronization point, dispatching to either the vector-content (display
list) branch or the external-stream (surface texture) branch.

Collaborator calls performed by `apply()` / `doUpdateTexImage()` are
recorded as an explicit event trace (`Event`), so that theorems can speak
about which GPU-side routines were invoked and with which arguments.
External collaborators (the resize routine, the stream consumer) are
modelled as oracles: the resize routine as a boolean-valued function
argument, the stream as a finite list of pull outcomes.
-/

set_option autoImplicit false

namespace DLU

/-- Modelled from the spec: the dirty region is "the minimal bounding
rectangle of surface area that changed".  The source stores it in an
`android::uirenderer::Rect` (a file of this repository that is not under
`src/`); only `set`, `isEmpty`, `setEmpty` and `unionWith` are used. -/
structure Rect where
  left : Int
  top : Int
  right : Int
  bottom : Int
deriving Repr, DecidableEq

/-- A rectangle is empty when it has no interior (non-positive width or
height). -/
def Rect.isEmpty (r : Rect) : Bool :=
  decide (r.right ≤ r.left) || decide (r.bottom ≤ r.top)

/-- The empty rectangle used by `setEmpty()` / `mDirtyRect.setEmpty()`. -/
def Rect.empty : Rect := ⟨0, 0, 0, 0⟩

/-- Modelled from the spec: "union of rectangles" — the bounding box of the
two rectangles, ignoring an empty argument. -/
def Rect.unionWith (a b : Rect) : Rect :=
  if b.isEmpty then a
  else if a.isEmpty then b
  else ⟨min a.left b.left, min a.top b.top, max a.right b.right, max a.bottom b.bottom⟩

/-- Region containment as a boolean: the empty region is contained in
everything, a non-empty region is contained when its bounds are inside
the outer bounds. -/
def Rect.containsRect (outer inner : Rect) : Bool :=
  inner.isEmpty ||
    (decide (outer.left ≤ inner.left) && decide (outer.top ≤ inner.top) &&
     decide (inner.right ≤ outer.right) && decide (inner.bottom ≤ outer.bottom))

/-- The union bounding box of a list of rectangles (the spec's "union
bounding box of R1..Rn"). -/
def boundingBox (rs : List Rect) : Rect :=
  rs.foldl Rect.unionWith Rect.empty

/-- The external image stream (`GLConsumer` / `mSurfaceTexture`), modelled
as an oracle: `pulls` is the finite list of outcomes of successive
`updateTexImage()` calls (`some n` = `NO_ERROR` with `getFrameNumber() = n`,
`none` = failure; an exhausted list keeps failing), `current` is the frame
number of the currently latched frame, `buffer` the dimensions of
`getCurrentBuffer()` (or `none` for a NULL buffer), `transformMatrix` the
result of `getTransformMatrix` and `target` the current texture target. -/
structure StreamState where
  pulls : List (Option Int)
  current : Int
  buffer : Option (Nat × Nat)
  transformMatrix : Nat
  target : Nat
deriving Repr, DecidableEq

/-- The externally owned `Layer` resource, restricted to the attributes this
class reads or writes (`Layer` itself is a file of this repository that is
not under `src/`; attributes follow the spec's data model). -/
structure Layer where
  width : Nat
  height : Nat
  blend : Bool
  colorFilter : Option Nat
  alpha : Int
  mode : Nat
  transform : Nat
deriving Repr, DecidableEq

/-- One collaborator call performed during `apply()` (the GPU-side effects
the claims talk about). -/
inductive Event where
  | resizeLayer (w h : Nat)
  | setBlend (b : Bool)
  | updateProperties
  | updateDeferred (left top right bottom : Int)
  | attachToContext
  | updateTextureLayer (w h : Nat) (opacityHint forceFilter : Bool) (target tf : Nat)
  | loadTransform (tf : Nat)
deriving Repr, DecidableEq

/-- True for the one event representing `LayerRenderer::updateTextureLayer`. -/
def Event.isTexUpdate : Event → Bool
  | Event.updateTextureLayer _ _ _ _ _ _ => true
  | _ => false

/-- Events that only the external-stream branch can emit. -/
def Event.isStreamEvent : Event → Bool
  | Event.attachToContext => true
  | Event.updateTextureLayer _ _ _ _ _ _ => true
  | Event.loadTransform _ => true
  | _ => false

/-- Events that only the vector-content branch can emit. -/
def Event.isVectorEvent : Event → Bool
  | Event.resizeLayer _ _ => true
  | Event.setBlend _ => true
  | Event.updateProperties => true
  | Event.updateDeferred _ _ _ _ => true
  | _ => false

/-- Number of texture-update calls in a trace. -/
def countTexUpdates (evs : List Event) : Nat :=
  (evs.filter Event.isTexUpdate).length

/-- The member state of `DeferredLayerUpdater`.  `mDisplayList` is the
pending vector content (a `RenderNode*`, modelled as an id), `mSurfaceTexture`
the external stream, `mTransform` the pending transform (a `SkMatrix*`,
modelled as an id).  `mLayer` is inlined since the class holds the only
mutating reference during `apply()`. -/
structure DeferredLayerUpdater where
  mDisplayList : Option Nat
  mSurfaceTexture : Option StreamState
  mTransform : Option Nat
  mNeedsGLContextAttach : Bool
  mUpdateTexImage : Bool
  mWidth : Nat
  mHeight : Nat
  mBlend : Bool
  mColorFilter : Option Nat
  mAlpha : Int
  mMode : Nat
  mDirtyRect : Rect
  mLayer : Layer
deriving Repr, DecidableEq

/-- DeferredLayerUpdater::setDisplayList — records the pending display list
and merges the region into the accumulated dirty rect (`set` when the
accumulator is empty, `unionWith` otherwise). -/
def DeferredLayerUpdater.setDisplayList (s : DeferredLayerUpdater) (displayList : Nat)
    (left top right bottom : Int) : DeferredLayerUpdater :=
  let r : Rect := ⟨left, top, right, bottom⟩
  { s with
    mDisplayList := some displayList
    mDirtyRect := if s.mDirtyRect.isEmpty then r else s.mDirtyRect.unionWith r }

/-- Modelled from the spec: `setTransform(matrix|none)` "stores or clears the
pending transform; does not apply it immediately" (the setter lives in
`DeferredLayerUpdater.h`, a file of this repository not under `src/`). -/
def DeferredLayerUpdater.setTransform (s : DeferredLayerUpdater) (t : Option Nat) :
    DeferredLayerUpdater :=
  { s with mTransform := t }

/-- Modelled from the spec: `markStreamFrameAvailable()` "sets
`needsStreamRefresh = true`; idempotent" (the setter lives in
`DeferredLayerUpdater.h`, a file of this repository not under `src/`). -/
def DeferredLayerUpdater.updateTexImage (s : DeferredLayerUpdater) : DeferredLayerUpdater :=
  { s with mUpdateTexImage := true }

/-- Shared-property application at the top of `apply()`:
`mLayer->setColorFilter(mColorFilter); mLayer->setAlpha(mAlpha, mMode);`. -/
def DeferredLayerUpdater.sharedLayer (s : DeferredLayerUpdater) : Layer :=
  { s.mLayer with colorFilter := s.mColorFilter, alpha := s.mAlpha, mode := s.mMode }

/-- The synchronous-mode drain loop of `doUpdateTexImage`:
`while (mSurfaceTexture->updateTexImage() == NO_ERROR) { ... }`.
Consumes pull outcomes; returns the remaining pulls, the final frame number
and the final `dropCounter`. -/
def drainLoop : List (Option Int) → Int → Nat → List (Option Int) × Int × Nat
  | [], frameNumber, dropCounter => ([], frameNumber, dropCounter)
  | none :: rest, frameNumber, dropCounter => (rest, frameNumber, dropCounter)
  | some n :: rest, frameNumber, dropCounter =>
    if n = frameNumber then (rest, frameNumber, dropCounter)
    else drainLoop rest n (dropCounter + 1)

/-- Body of `DeferredLayerUpdater::doUpdateTexImage` for a present stream:
first `updateTexImage()` pull; on success, drain, compute `forceFilter`
from the current buffer, and call `LayerRenderer::updateTextureLayer` with
`(mWidth, mHeight, !mBlend, forceFilter, renderTarget, transform)`. -/
def streamDrain (s : DeferredLayerUpdater) (st : StreamState) :
    DeferredLayerUpdater × List Event :=
  match st.pulls with
  | [] => (s, [])
  | none :: rest =>
    ({ s with mSurfaceTexture := some { st with pulls := rest } }, [])
  | some n :: rest =>
    let r := drainLoop rest n 0
    let forceFilter :=
      match st.buffer with
      | some wh => decide (s.mWidth ≠ wh.1) || decide (s.mHeight ≠ wh.2)
      | none => false
    ({ s with mSurfaceTexture := some { st with pulls := r.1, current := r.2.1 } },
     [Event.updateTextureLayer s.mWidth s.mHeight (!s.mBlend) forceFilter
        st.target st.transformMatrix])

/-- DeferredLayerUpdater::doUpdateTexImage. -/
def DeferredLayerUpdater.doUpdateTexImage (s : DeferredLayerUpdater) :
    DeferredLayerUpdater × List Event :=
  match s.mSurfaceTexture with
  | none => (s, [])
  | some st => streamDrain s st

/-- The vector-content branch of `apply()`: optional resize, `setBlend`,
`updateProperties`, `updateDeferred` with the accumulated dirty bounds,
then clear the dirty rect and the pending display list.  The resize
collaborator is the oracle `res`; on success it leaves the layer at the
requested dimensions. -/
def DeferredLayerUpdater.applyVector (res : Nat → Nat → Bool) (s : DeferredLayerUpdater) :
    DeferredLayerUpdater × List Event × Bool :=
  let layer0 := s.sharedLayer
  let step1 : Bool × Layer × List Event :=
    if s.mWidth != layer0.width || s.mHeight != layer0.height then
      let ok := res s.mWidth s.mHeight
      (ok,
       if ok then { layer0 with width := s.mWidth, height := s.mHeight } else layer0,
       [Event.resizeLayer s.mWidth s.mHeight])
    else (true, layer0, [])
  let layer2 := { step1.2.1 with blend := s.mBlend }
  ({ s with mLayer := layer2, mDirtyRect := Rect.empty, mDisplayList := none },
   step1.2.2 ++
     [Event.setBlend s.mBlend, Event.updateProperties,
      Event.updateDeferred s.mDirtyRect.left s.mDirtyRect.top
        s.mDirtyRect.right s.mDirtyRect.bottom],
   step1.1)

/-- Step (a) of the external-stream branch:
`if (mNeedsGLContextAttach) { mNeedsGLContextAttach = false; attachToContext(...); }`. -/
def DeferredLayerUpdater.stepAttach (s : DeferredLayerUpdater) :
    DeferredLayerUpdater × List Event :=
  if s.mNeedsGLContextAttach then
    ({ s with mNeedsGLContextAttach := false }, [Event.attachToContext])
  else (s, [])

/-- Step (b) of the external-stream branch:
`if (mUpdateTexImage) { mUpdateTexImage = false; doUpdateTexImage(); }`. -/
def DeferredLayerUpdater.stepRefresh (s : DeferredLayerUpdater) :
    DeferredLayerUpdater × List Event :=
  if s.mUpdateTexImage then
    DeferredLayerUpdater.doUpdateTexImage { s with mUpdateTexImage := false }
  else (s, [])

/-- Step (c) of the external-stream branch:
`if (mTransform) { mLayer->getTransform().load(*mTransform); setTransform(0); }`. -/
def DeferredLayerUpdater.stepTransform (s : DeferredLayerUpdater) :
    DeferredLayerUpdater × List Event :=
  match s.mTransform with
  | some tf =>
    ({ s with mLayer := { s.mLayer with transform := tf }, mTransform := none },
     [Event.loadTransform tf])
  | none => (s, [])

/-- The external-stream branch of `apply()`: one-shot context attach,
one-shot texture-image refresh, then consume a pending transform. -/
def DeferredLayerUpdater.applyStream (s : DeferredLayerUpdater) :
    DeferredLayerUpdater × List Event :=
  let p1 := DeferredLayerUpdater.stepAttach { s with mLayer := s.sharedLayer }
  let p2 := DeferredLayerUpdater.stepRefresh p1.1
  let p3 := DeferredLayerUpdater.stepTransform p2.1
  (p3.1, p1.2 ++ p2.2 ++ p3.2)

/-- DeferredLayerUpdater::apply.  Returns the post state, the trace of
collaborator calls, and the boolean `success`. -/
def DeferredLayerUpdater.apply (res : Nat → Nat → Bool) (s : DeferredLayerUpdater) :
    DeferredLayerUpdater × List Event × Bool :=
  match s.mDisplayList with
  | some _ => s.applyVector res
  | none =>
    match s.mSurfaceTexture with
    | some _ =>
      let q := s.applyStream
      (q.1, q.2, true)
    | none => ({ s with mLayer := s.sharedLayer }, [], true)

/-- A sequence of `setDisplayList` calls, applied in order. -/
def setDisplayListSeq (s : DeferredLayerUpdater) : List (Nat × Rect) → DeferredLayerUpdater
  | [] => s
  | (dl, r) :: rest =>
    setDisplayListSeq (s.setDisplayList dl r.left r.top r.right r.bottom) rest

/-- A concrete layer used by witnesses and counterexamples. -/
def layer100 : Layer :=
  { width := 100, height := 100, blend := true, colorFilter := none,
    alpha := 255, mode := 0, transform := 0 }

/-- A concrete quiescent updater state over `layer100`. -/
def base : DeferredLayerUpdater :=
  { mDisplayList := none, mSurfaceTexture := none, mTransform := none,
    mNeedsGLContextAttach := false, mUpdateTexImage := false,
    mWidth := 100, mHeight := 100, mBlend := true, mColorFilter := none,
    mAlpha := 255, mMode := 0, mDirtyRect := Rect.empty, mLayer := layer100 }

/-- Concrete state for the failed-resize scenario: pending vector content at
200 by 150 while the layer is still 100 by 100. -/
def sFail : DeferredLayerUpdater :=
  { base with mDisplayList := some 1, mWidth := 200, mHeight := 150,
              mDirtyRect := ⟨0, 0, 50, 50⟩ }

/-- Concrete stream yielding frame numbers 5, 6, 6 on successive pulls. -/
def st556 : StreamState :=
  { pulls := [some 5, some 6, some 6], current := 0, buffer := some (100, 100),
    transformMatrix := 7, target := 3 }

/-- Concrete state with a pending stream refresh over the 5,6,6 stream. -/
def sStream556 : DeferredLayerUpdater :=
  { base with mSurfaceTexture := some st556, mUpdateTexImage := true }

/-- Concrete stream whose first pull fails while a later frame remains
queued. -/
def stFirstFail : StreamState :=
  { pulls := [none, some 7], current := 0, buffer := some (80, 60),
    transformMatrix := 7, target := 3 }

/-- Concrete state with a pending stream refresh over `stFirstFail`. -/
def sStreamFail : DeferredLayerUpdater :=
  { base with mSurfaceTexture := some stFirstFail, mUpdateTexImage := true }

/- ### Helper lemmas -/

theorem unionWith_of_nonempty (d r : Rect) (hr : r.isEmpty = false) :
    (if d.isEmpty then r else d.unionWith r) = d.unionWith r := by
  by_cases hd : d.isEmpty <;> simp [Rect.unionWith, hd, hr]

theorem unionWith_contains_left (a b : Rect) :
    Rect.containsRect (a.unionWith b) a = true := by
  by_cases hb : b.isEmpty
  · simp [Rect.unionWith, Rect.containsRect, hb]
  · by_cases ha : a.isEmpty
    · simp [Rect.unionWith, Rect.containsRect, hb, ha]
    · simp [Rect.unionWith, Rect.containsRect, hb, ha, min_le_left, le_max_left]

theorem setDisplayListSeq_dirty (ps : List (Nat × Rect)) :
    ∀ s : DeferredLayerUpdater, (∀ p ∈ ps, Rect.isEmpty p.2 = false) →
      (setDisplayListSeq s ps).mDirtyRect =
        (ps.map Prod.snd).foldl Rect.unionWith s.mDirtyRect := by
  induction ps with
  | nil => intro s _; rfl
  | cons p rest ih =>
    intro s h
    obtain ⟨dl, r⟩ := p
    have hr : Rect.isEmpty r = false := h (dl, r) (List.mem_cons_self _ _)
    have hstep : (s.setDisplayList dl r.left r.top r.right r.bottom).mDirtyRect =
        s.mDirtyRect.unionWith r := by
      show (if s.mDirtyRect.isEmpty then r else s.mDirtyRect.unionWith r) =
        s.mDirtyRect.unionWith r
      exact unionWith_of_nonempty _ _ hr
    calc (setDisplayListSeq s ((dl, r) :: rest)).mDirtyRect
        = (setDisplayListSeq (s.setDisplayList dl r.left r.top r.right r.bottom)
            rest).mDirtyRect := rfl
      _ = (rest.map Prod.snd).foldl Rect.unionWith
            (s.setDisplayList dl r.left r.top r.right r.bottom).mDirtyRect :=
          ih _ (fun q hq => h q (List.mem_cons_of_mem _ hq))
      _ = (((dl, r) :: rest).map Prod.snd).foldl Rect.unionWith s.mDirtyRect := by
          rw [hstep]; rfl

theorem setDisplayListSeq_some (ps : List (Nat × Rect)) :
    ∀ s : DeferredLayerUpdater, ps ≠ [] →
      ∃ dl, (setDisplayListSeq s ps).mDisplayList = some dl := by
  induction ps with
  | nil => intro s h; exact absurd rfl h
  | cons p rest ih =>
    intro s _
    obtain ⟨dl, r⟩ := p
    by_cases hrest : rest = []
    · subst hrest
      exact ⟨dl, rfl⟩
    · exact ih _ hrest

theorem applyVector_state (res : Nat → Nat → Bool) (s : DeferredLayerUpdater) :
    (s.applyVector res).1.mDirtyRect = Rect.empty ∧
    (s.applyVector res).1.mDisplayList = none ∧
    (s.applyVector res).1.mTransform = s.mTransform ∧
    (s.applyVector res).1.mSurfaceTexture = s.mSurfaceTexture ∧
    (s.applyVector res).1.mNeedsGLContextAttach = s.mNeedsGLContextAttach ∧
    (s.applyVector res).1.mUpdateTexImage = s.mUpdateTexImage := by
  simp [DeferredLayerUpdater.applyVector]

theorem applyVector_events (res : Nat → Nat → Bool) (s : DeferredLayerUpdater) :
    (s.applyVector res).2.1 =
      (if s.mWidth != s.mLayer.width || s.mHeight != s.mLayer.height then
        [Event.resizeLayer s.mWidth s.mHeight]
      else []) ++
      [Event.setBlend s.mBlend, Event.updateProperties,
       Event.updateDeferred s.mDirtyRect.left s.mDirtyRect.top
         s.mDirtyRect.right s.mDirtyRect.bottom] := by
  simp only [DeferredLayerUpdater.applyVector, DeferredLayerUpdater.sharedLayer]
  split <;> rfl

theorem applyVector_ret (res : Nat → Nat → Bool) (s : DeferredLayerUpdater) :
    (s.applyVector res).2.2 =
      (if s.mWidth != s.mLayer.width || s.mHeight != s.mLayer.height then
        res s.mWidth s.mHeight
      else true) := by
  simp only [DeferredLayerUpdater.applyVector, DeferredLayerUpdater.sharedLayer]
  split <;> rfl

theorem streamDrain_state (s : DeferredLayerUpdater) (st : StreamState) :
    (streamDrain s st).1.mDisplayList = s.mDisplayList ∧
    (streamDrain s st).1.mDirtyRect = s.mDirtyRect ∧
    (streamDrain s st).1.mTransform = s.mTransform ∧
    (streamDrain s st).1.mUpdateTexImage = s.mUpdateTexImage ∧
    (streamDrain s st).1.mNeedsGLContextAttach = s.mNeedsGLContextAttach ∧
    (streamDrain s st).1.mWidth = s.mWidth ∧
    (streamDrain s st).1.mHeight = s.mHeight ∧
    (streamDrain s st).1.mBlend = s.mBlend ∧
    (streamDrain s st).1.mLayer = s.mLayer := by
  rcases h : st.pulls with _ | ⟨_ | n, rest⟩ <;> simp [streamDrain, h]

theorem streamDrain_events (s : DeferredLayerUpdater) (st : StreamState) :
    ∀ e ∈ (streamDrain s st).2, e.isStreamEvent = true := by
  rcases h : st.pulls with _ | ⟨_ | n, rest⟩ <;>
    simp [streamDrain, h, Event.isStreamEvent]

theorem doUpdateTexImage_state (s : DeferredLayerUpdater) :
    (s.doUpdateTexImage).1.mDisplayList = s.mDisplayList ∧
    (s.doUpdateTexImage).1.mDirtyRect = s.mDirtyRect ∧
    (s.doUpdateTexImage).1.mTransform = s.mTransform ∧
    (s.doUpdateTexImage).1.mUpdateTexImage = s.mUpdateTexImage ∧
    (s.doUpdateTexImage).1.mNeedsGLContextAttach = s.mNeedsGLContextAttach ∧
    (s.doUpdateTexImage).1.mWidth = s.mWidth ∧
    (s.doUpdateTexImage).1.mHeight = s.mHeight ∧
    (s.doUpdateTexImage).1.mBlend = s.mBlend ∧
    (s.doUpdateTexImage).1.mLayer = s.mLayer := by
  rcases h : s.mSurfaceTexture with _ | st
  · simp [DeferredLayerUpdater.doUpdateTexImage, h]
  · simpa [DeferredLayerUpdater.doUpdateTexImage, h] using streamDrain_state s st

theorem doUpdateTexImage_events (s : DeferredLayerUpdater) :
    ∀ e ∈ (s.doUpdateTexImage).2, e.isStreamEvent = true := by
  rcases h : s.mSurfaceTexture with _ | st
  · simp [DeferredLayerUpdater.doUpdateTexImage, h]
  · simpa [DeferredLayerUpdater.doUpdateTexImage, h] using streamDrain_events s st

theorem stepAttach_state (s : DeferredLayerUpdater) :
    (s.stepAttach).1.mDisplayList = s.mDisplayList ∧
    (s.stepAttach).1.mDirtyRect = s.mDirtyRect ∧
    (s.stepAttach).1.mTransform = s.mTransform ∧
    (s.stepAttach).1.mUpdateTexImage = s.mUpdateTexImage ∧
    (s.stepAttach).1.mSurfaceTexture = s.mSurfaceTexture ∧
    (s.stepAttach).1.mNeedsGLContextAttach = false ∧
    (s.stepAttach).1.mWidth = s.mWidth ∧
    (s.stepAttach).1.mHeight = s.mHeight ∧
    (s.stepAttach).1.mBlend = s.mBlend ∧
    (s.stepAttach).1.mLayer = s.mLayer := by
  by_cases h : s.mNeedsGLContextAttach <;> simp [DeferredLayerUpdater.stepAttach, h]

theorem stepAttach_events (s : DeferredLayerUpdater) :
    ∀ e ∈ (s.stepAttach).2, e.isStreamEvent = true ∧ e.isTexUpdate = false := by
  by_cases h : s.mNeedsGLContextAttach <;>
    simp [DeferredLayerUpdater.stepAttach, h, Event.isStreamEvent, Event.isTexUpdate]

theorem stepRefresh_state (s : DeferredLayerUpdater) :
    (s.stepRefresh).1.mDisplayList = s.mDisplayList ∧
    (s.stepRefresh).1.mDirtyRect = s.mDirtyRect ∧
    (s.stepRefresh).1.mTransform = s.mTransform ∧
    (s.stepRefresh).1.mUpdateTexImage = false ∧
    (s.stepRefresh).1.mNeedsGLContextAttach = s.mNeedsGLContextAttach ∧
    (s.stepRefresh).1.mWidth = s.mWidth ∧
    (s.stepRefresh).1.mHeight = s.mHeight ∧
    (s.stepRefresh).1.mBlend = s.mBlend ∧
    (s.stepRefresh).1.mLayer = s.mLayer := by
  by_cases h : s.mUpdateTexImage
  · have := doUpdateTexImage_state { s with mUpdateTexImage := false }
    simp only [DeferredLayerUpdater.stepRefresh, h, if_true]
    simpa using this
  · simp [DeferredLayerUpdater.stepRefresh, h]

theorem stepRefresh_events (s : DeferredLayerUpdater) :
    ∀ e ∈ (s.stepRefresh).2, e.isStreamEvent = true := by
  by_cases h : s.mUpdateTexImage
  · have := doUpdateTexImage_events { s with mUpdateTexImage := false }
    simp only [DeferredLayerUpdater.stepRefresh, h, if_true]
    exact this
  · simp [DeferredLayerUpdater.stepRefresh, h]

theorem stepTransform_state (s : DeferredLayerUpdater) :
    (s.stepTransform).1.mDisplayList = s.mDisplayList ∧
    (s.stepTransform).1.mDirtyRect = s.mDirtyRect ∧
    (s.stepTransform).1.mTransform = none ∧
    (s.stepTransform).1.mUpdateTexImage = s.mUpdateTexImage ∧
    (s.stepTransform).1.mSurfaceTexture = s.mSurfaceTexture ∧
    (s.stepTransform).1.mNeedsGLContextAttach = s.mNeedsGLContextAttach ∧
    (s.stepTransform).1.mWidth = s.mWidth ∧
    (s.stepTransform).1.mHeight = s.mHeight ∧
    (s.stepTransform).1.mBlend = s.mBlend := by
  rcases h : s.mTransform with _ | tf <;> simp [DeferredLayerUpdater.stepTransform, h]

theorem stepTransform_events (s : DeferredLayerUpdater) :
    ∀ e ∈ (s.stepTransform).2, e.isStreamEvent = true ∧ e.isTexUpdate = false := by
  rcases h : s.mTransform with _ | tf <;>
    simp [DeferredLayerUpdater.stepTransform, h, Event.isStreamEvent, Event.isTexUpdate]

theorem stepTransform_some (s : DeferredLayerUpdater) (tf : Nat) (h : s.mTransform = some tf) :
    s.stepTransform =
      ({ s with mLayer := { s.mLayer with transform := tf }, mTransform := none },
       [Event.loadTransform tf]) := by
  simp [DeferredLayerUpdater.stepTransform, h]

theorem applyStream_state (s : DeferredLayerUpdater) :
    (s.applyStream).1.mDisplayList = s.mDisplayList ∧
    (s.applyStream).1.mDirtyRect = s.mDirtyRect ∧
    (s.applyStream).1.mTransform = none ∧
    (s.applyStream).1.mUpdateTexImage = false ∧
    (s.applyStream).1.mNeedsGLContextAttach = false ∧
    (s.applyStream).1.mWidth = s.mWidth ∧
    (s.applyStream).1.mHeight = s.mHeight ∧
    (s.applyStream).1.mBlend = s.mBlend := by
  have h1 := stepAttach_state { s with mLayer := s.sharedLayer }
  have h2 := stepRefresh_state
    (DeferredLayerUpdater.stepAttach { s with mLayer := s.sharedLayer }).1
  have h3 := stepTransform_state
    (DeferredLayerUpdater.stepRefresh
      (DeferredLayerUpdater.stepAttach { s with mLayer := s.sharedLayer }).1).1
  simp only [DeferredLayerUpdater.applyStream]
  obtain ⟨a1, a2, a3, a4, a5, a6, a7, a8, a9, a10⟩ := h1
  obtain ⟨b1, b2, b3, b4, b5, b6, b7, b8, b9⟩ := h2
  obtain ⟨c1, c2, c3, c4, c5, c6, c7, c8, c9⟩ := h3
  simp_all

theorem applyStream_events (s : DeferredLayerUpdater) :
    ∀ e ∈ (s.applyStream).2, e.isStreamEvent = true := by
  intro e he
  simp only [DeferredLayerUpdater.applyStream, List.mem_append] at he
  rcases he with (he | he) | he
  · exact (stepAttach_events _ e he).1
  · exact stepRefresh_events _ e he
  · exact (stepTransform_events _ e he).1

theorem countTexUpdates_append (a b : List Event) :
    countTexUpdates (a ++ b) = countTexUpdates a + countTexUpdates b := by
  simp [countTexUpdates, List.filter_append]

theorem countTexUpdates_zero (evs : List Event)
    (h : ∀ e ∈ evs, e.isTexUpdate = false) : countTexUpdates evs = 0 := by
  unfold countTexUpdates
  rw [List.length_eq_zero, List.filter_eq_nil_iff]
  intro e he
  simp [h e he]

theorem stepAttach_texCount (s : DeferredLayerUpdater) :
    countTexUpdates (s.stepAttach).2 = 0 := by
  by_cases h : s.mNeedsGLContextAttach <;>
    simp [DeferredLayerUpdater.stepAttach, h, countTexUpdates, Event.isTexUpdate]

theorem stepTransform_texCount (s : DeferredLayerUpdater) :
    countTexUpdates (s.stepTransform).2 = 0 := by
  rcases h : s.mTransform with _ | tf <;>
    simp [DeferredLayerUpdater.stepTransform, h, countTexUpdates, Event.isTexUpdate]

theorem countTexUpdates_nil : countTexUpdates [] = 0 := rfl

theorem stepRefresh_noRefresh (s : DeferredLayerUpdater) (h : s.mUpdateTexImage = false) :
    s.stepRefresh = (s, []) := by
  simp [DeferredLayerUpdater.stepRefresh, h]

theorem stepRefresh_firstFail (s : DeferredLayerUpdater) (st : StreamState)
    (rest : List (Option Int)) (h1 : s.mSurfaceTexture = some st)
    (h2 : st.pulls = none :: rest) (h3 : s.mUpdateTexImage = true) :
    s.stepRefresh =
      ({ s with mUpdateTexImage := false,
                mSurfaceTexture := some { st with pulls := rest } }, []) := by
  simp [DeferredLayerUpdater.stepRefresh, h3, DeferredLayerUpdater.doUpdateTexImage, h1,
        streamDrain, h2]

theorem applyStream_firstFail (s : DeferredLayerUpdater) (st : StreamState)
    (rest : List (Option Int)) (h1 : s.mSurfaceTexture = some st)
    (h2 : st.pulls = none :: rest) (h3 : s.mUpdateTexImage = true) :
    (s.applyStream).1.mSurfaceTexture = some { st with pulls := rest } ∧
    countTexUpdates (s.applyStream).2 = 0 := by
  obtain ⟨a1, a2, a3, a4, a5, a6, a7, a8, a9, a10⟩ :=
    stepAttach_state { s with mLayer := s.sharedLayer }
  have hA : (DeferredLayerUpdater.stepAttach
      { s with mLayer := s.sharedLayer }).1.mSurfaceTexture = some st := by
    rw [a5]; exact h1
  have hU : (DeferredLayerUpdater.stepAttach
      { s with mLayer := s.sharedLayer }).1.mUpdateTexImage = true := by
    rw [a4]; exact h3
  have hR := stepRefresh_firstFail _ st rest hA h2 hU
  simp only [DeferredLayerUpdater.applyStream]
  rw [hR]
  constructor
  · obtain ⟨_, _, _, _, c5, _⟩ := stepTransform_state
      ({ (DeferredLayerUpdater.stepAttach { s with mLayer := s.sharedLayer }).1 with
         mUpdateTexImage := false,
         mSurfaceTexture := some { st with pulls := rest } } : DeferredLayerUpdater)
    simpa using c5
  · rw [countTexUpdates_append, countTexUpdates_append]
    simp [stepAttach_texCount, stepTransform_texCount, countTexUpdates_nil]

theorem applyStream_noRefresh (s : DeferredLayerUpdater) (h : s.mUpdateTexImage = false) :
    (s.applyStream).1.mSurfaceTexture = s.mSurfaceTexture ∧
    countTexUpdates (s.applyStream).2 = 0 := by
  obtain ⟨a1, a2, a3, a4, a5, a6, a7, a8, a9, a10⟩ :=
    stepAttach_state { s with mLayer := s.sharedLayer }
  have hU : (DeferredLayerUpdater.stepAttach
      { s with mLayer := s.sharedLayer }).1.mUpdateTexImage = false := by
    rw [a4]; exact h
  have hR := stepRefresh_noRefresh _ hU
  simp only [DeferredLayerUpdater.applyStream]
  rw [hR]
  constructor
  · obtain ⟨_, _, _, _, c5, _⟩ := stepTransform_state
      (DeferredLayerUpdater.stepAttach { s with mLayer := s.sharedLayer }).1
    rw [c5, a5]
  · rw [countTexUpdates_append, countTexUpdates_append]
    simp [stepAttach_texCount, stepTransform_texCount, countTexUpdates_nil]

theorem applyStream_transform (s : DeferredLayerUpdater) (tf : Nat)
    (h : s.mTransform = some tf) :
    (s.applyStream).1.mTransform = none ∧
    (s.applyStream).1.mLayer.transform = tf ∧
    Event.loadTransform tf ∈ (s.applyStream).2 := by
  obtain ⟨a1, a2, a3, a4, a5, a6, a7, a8, a9, a10⟩ :=
    stepAttach_state { s with mLayer := s.sharedLayer }
  obtain ⟨b1, b2, b3, b4, b5, b6, b7, b8, b9⟩ :=
    stepRefresh_state (DeferredLayerUpdater.stepAttach { s with mLayer := s.sharedLayer }).1
  have hT : (DeferredLayerUpdater.stepRefresh
      (DeferredLayerUpdater.stepAttach
        { s with mLayer := s.sharedLayer }).1).1.mTransform = some tf := by
    rw [b3, a3]; exact h
  have hS := stepTransform_some _ tf hT
  simp only [DeferredLayerUpdater.applyStream]
  rw [hS]
  simp

theorem apply_vector_case (res : Nat → Nat → Bool) (s : DeferredLayerUpdater) (dl : Nat)
    (h : s.mDisplayList = some dl) : s.apply res = s.applyVector res := by
  simp [DeferredLayerUpdater.apply, h]

theorem apply_stream_case (res : Nat → Nat → Bool) (s : DeferredLayerUpdater)
    (st : StreamState) (h1 : s.mDisplayList = none) (h2 : s.mSurfaceTexture = some st) :
    s.apply res = ((s.applyStream).1, (s.applyStream).2, true) := by
  simp [DeferredLayerUpdater.apply, h1, h2]

theorem apply_none_case (res : Nat → Nat → Bool) (s : DeferredLayerUpdater)
    (h1 : s.mDisplayList = none) (h2 : s.mSurfaceTexture = none) :
    s.apply res = ({ s with mLayer := s.sharedLayer }, [], true) := by
  simp [DeferredLayerUpdater.apply, h1, h2]

/- ### Claim C1 -/

/-- C1 counterexample: with pending vector content at 200 by 150 over a
100 by 100 layer and a failing resize oracle, `apply()` reports failure and
nevertheless applies the blend flag, invokes the display list's property
refresh, and calls the layer's deferred-content-update routine — refuting
the claim that a failed resize aborts the content update. -/
theorem c1_counterexample :
    (sFail.apply (fun _ _ => false)).2.2 = false ∧
    Event.setBlend true ∈ (sFail.apply (fun _ _ => false)).2.1 ∧
    Event.updateProperties ∈ (sFail.apply (fun _ _ => false)).2.1 ∧
    Event.updateDeferred 0 0 50 50 ∈ (sFail.apply (fun _ _ => false)).2.1 := by
  decide

/-- C1 (amended): when the resize requested in `apply()`'s vector-content
branch fails, `apply()` returns false but still proceeds with the content
update for that call: the blend flag is applied, the vector-content
evaluator's property refresh is invoked, and the layer's deferred-content
update routine is called with the accumulated dirty bounds. -/
theorem c1_failed_resize_still_updates (s : DeferredLayerUpdater)
    (res : Nat → Nat → Bool) (dl : Nat) (hdl : s.mDisplayList = some dl)
    (hdiff : (s.mWidth != s.mLayer.width || s.mHeight != s.mLayer.height) = true)
    (hres : res s.mWidth s.mHeight = false) :
    (s.apply res).2.2 = false ∧
    Event.setBlend s.mBlend ∈ (s.apply res).2.1 ∧
    Event.updateProperties ∈ (s.apply res).2.1 ∧
    Event.updateDeferred s.mDirtyRect.left s.mDirtyRect.top s.mDirtyRect.right
      s.mDirtyRect.bottom ∈ (s.apply res).2.1 := by
  rw [apply_vector_case res s dl hdl]
  refine ⟨?_, ?_, ?_, ?_⟩
  · rw [applyVector_ret, hdiff]; simpa using hres
  all_goals rw [applyVector_events]; simp

/-- C1 witness: the amended claim at the concrete failed-resize scenario. -/
theorem c1_witness :
    (sFail.apply (fun _ _ => false)).2.2 = false ∧
    Event.updateProperties ∈ (sFail.apply (fun _ _ => false)).2.1 :=
  ⟨(c1_failed_resize_still_updates sFail (fun _ _ => false) 1 (by decide) (by decide)
      (by decide)).1,
   (c1_failed_resize_still_updates sFail (fun _ _ => false) 1 (by decide) (by decide)
      (by decide)).2.2.1⟩

/- ### Claim C2 -/

/-- C2 counterexample: in the same failed-resize scenario, the pending
display list and the accumulated dirty region ARE cleared by the failing
`apply()` call, and a second `apply()` performs no collaborator call at
all — refuting the claim that the pending content is retained for a retry. -/
theorem c2_counterexample :
    (sFail.apply (fun _ _ => false)).2.2 = false ∧
    (sFail.apply (fun _ _ => false)).1.mDisplayList = none ∧
    (sFail.apply (fun _ _ => false)).1.mDirtyRect = Rect.empty ∧
    ((sFail.apply (fun _ _ => false)).1.apply (fun _ _ => false)).2.1 = [] := by
  decide

/-- C2 (amended): the vector-content branch clears the pending display list
and resets the dirty region unconditionally, regardless of whether the
requested resize succeeded, so a subsequent `apply()` does not re-attempt
the content update. -/
theorem c2_pending_cleared_unconditionally (s : DeferredLayerUpdater)
    (res : Nat → Nat → Bool) (dl : Nat) (hdl : s.mDisplayList = some dl) :
    (s.apply res).1.mDisplayList = none ∧
    (s.apply res).1.mDirtyRect = Rect.empty := by
  rw [apply_vector_case res s dl hdl]
  exact ⟨(applyVector_state res s).2.1, (applyVector_state res s).1⟩

/-- C2 witness: the amended claim at the concrete failed-resize scenario. -/
theorem c2_witness :
    (sFail.apply (fun _ _ => false)).1.mDisplayList = none ∧
    (sFail.apply (fun _ _ => false)).1.mDirtyRect = Rect.empty :=
  c2_pending_cleared_unconditionally sFail (fun _ _ => false) 1 (by decide)

/- ### Claim C3 -/

/-- C3: the frame-drain loop stops immediately when a pull fails or when the
pulled sequence number repeats the recorded one, and otherwise advances the
recorded number and keeps pulling; on the concrete stream yielding sequence
numbers 5, 6, 6 the refresh terminates with frame 6 latched and issues
exactly one texture-update call. -/
theorem c3_drain_loop :
    (∀ f d, drainLoop [] f d = ([], f, d)) ∧
    (∀ rest f d, drainLoop (none :: rest) f d = (rest, f, d)) ∧
    (∀ n rest f d, drainLoop (some n :: rest) f d =
       if n = f then (rest, f, d) else drainLoop rest n (d + 1)) ∧
    countTexUpdates (sStream556.apply (fun _ _ => true)).2.1 = 1 ∧
    (sStream556.apply (fun _ _ => true)).1.mSurfaceTexture =
      some { pulls := [], current := 6, buffer := some (100, 100),
             transformMatrix := 7, target := 3 } := by
  refine ⟨fun f d => rfl, fun rest f d => rfl, fun n rest f d => rfl, ?_, ?_⟩ <;> decide

/- ### Claim C4 -/

/-- C4: for every sequence of `setDisplayList` calls with non-empty regions
R1..Rn made between two `apply()` calls, the region handed to the layer's
deferred content-update routine at the next `apply()` is the union bounding
box of R1..Rn, and the accumulated dirty region is empty immediately after
that `apply()`; moreover the accumulator never shrinks on a set, every
vector-content `apply()` resets it to empty, and a non-vector `apply()`
leaves it untouched. -/
theorem c4_dirty_region (res : Nat → Nat → Bool) :
    (∀ (s : DeferredLayerUpdater) (ps : List (Nat × Rect)),
       s.mDirtyRect = Rect.empty → (∀ p ∈ ps, Rect.isEmpty p.2 = false) → ps ≠ [] →
       Event.updateDeferred (boundingBox (ps.map Prod.snd)).left
           (boundingBox (ps.map Prod.snd)).top
           (boundingBox (ps.map Prod.snd)).right
           (boundingBox (ps.map Prod.snd)).bottom ∈
         ((setDisplayListSeq s ps).apply res).2.1 ∧
       ((setDisplayListSeq s ps).apply res).1.mDirtyRect = Rect.empty) ∧
    (∀ (s : DeferredLayerUpdater) (dl : Nat) (l t r b : Int),
       Rect.containsRect (s.setDisplayList dl l t r b).mDirtyRect s.mDirtyRect = true) ∧
    (∀ (s : DeferredLayerUpdater) (dl : Nat), s.mDisplayList = some dl →
       (s.apply res).1.mDirtyRect = Rect.empty) ∧
    (∀ s : DeferredLayerUpdater, s.mDisplayList = none →
       (s.apply res).1.mDirtyRect = s.mDirtyRect) := by
  refine ⟨?_, ?_, ?_, ?_⟩
  · intro s ps h0 hne hnil
    obtain ⟨dl, hdl⟩ := setDisplayListSeq_some ps s hnil
    have hdirty : (setDisplayListSeq s ps).mDirtyRect = boundingBox (ps.map Prod.snd) := by
      rw [setDisplayListSeq_dirty ps s hne, h0]; rfl
    rw [apply_vector_case res _ dl hdl]
    refine ⟨?_, (applyVector_state res _).1⟩
    rw [applyVector_events, hdirty]
    simp
  · intro s dl l t r b
    cases h : s.mDirtyRect.isEmpty
    · have : (s.setDisplayList dl l t r b).mDirtyRect =
        s.mDirtyRect.unionWith ⟨l, t, r, b⟩ := by
        simp [DeferredLayerUpdater.setDisplayList, h]
      rw [this]
      exact unionWith_contains_left _ _
    · simp [DeferredLayerUpdater.setDisplayList, h, Rect.containsRect]
  · intro s dl hdl
    rw [apply_vector_case res s dl hdl]
    exact (applyVector_state res s).1
  · intro s h
    rcases hst : s.mSurfaceTexture with _ | st
    · rw [apply_none_case res s h hst]
    · rw [apply_stream_case res s st h hst]
      exact (applyStream_state s).2.1

/-- A concrete sequence of two vector-content sets with overlapping
regions. -/
def psW : List (Nat × Rect) := [(1, ⟨0, 0, 10, 10⟩), (2, ⟨5, 5, 20, 15⟩)]

/-- C4 witness: the bounding-box conclusion at a concrete two-set
sequence. -/
theorem c4_witness :
    Event.updateDeferred (boundingBox (psW.map Prod.snd)).left
        (boundingBox (psW.map Prod.snd)).top
        (boundingBox (psW.map Prod.snd)).right
        (boundingBox (psW.map Prod.snd)).bottom ∈
      ((setDisplayListSeq base psW).apply (fun _ _ => true)).2.1 ∧
    ((setDisplayListSeq base psW).apply (fun _ _ => true)).1.mDirtyRect = Rect.empty :=
  (c4_dirty_region (fun _ _ => true)).1 base psW (by decide) (by decide) (by decide)

/- ### Claim C5 -/

/-- C5: `apply()` returns false exactly when vector content is pending, the
buffered dimensions differ from the layer's current dimensions at apply
time, and the requested resize fails; and a resize is requested exactly
when vector content is pending and the dimensions differ at apply time. -/
theorem c5_return_and_resize (s : DeferredLayerUpdater) (res : Nat → Nat → Bool) :
    ((s.apply res).2.2 = false ↔
      (s.mDisplayList.isSome = true ∧
       (s.mWidth != s.mLayer.width || s.mHeight != s.mLayer.height) = true ∧
       res s.mWidth s.mHeight = false)) ∧
    ((∃ w h, Event.resizeLayer w h ∈ (s.apply res).2.1) ↔
      (s.mDisplayList.isSome = true ∧
       (s.mWidth != s.mLayer.width || s.mHeight != s.mLayer.height) = true)) := by
  rcases hdl : s.mDisplayList with _ | dl
  · rcases hst : s.mSurfaceTexture with _ | st
    · rw [apply_none_case res s hdl hst]
      simp [hdl]
    · rw [apply_stream_case res s st hdl hst]
      constructor
      · simp [hdl]
      · constructor
        · rintro ⟨w, h, hmem⟩
          have h2 := applyStream_events s _ hmem
          simp [Event.isStreamEvent] at h2
        · rintro ⟨hbad, -⟩
          simp [hdl] at hbad
  · rw [apply_vector_case res s dl hdl]
    cases hd : (s.mWidth != s.mLayer.width || s.mHeight != s.mLayer.height)
    · constructor
      · rw [applyVector_ret]
        simp [hd, hdl]
      · rw [applyVector_events]
        simp [hd, hdl]
    · constructor
      · rw [applyVector_ret]
        simp [hd, hdl]
      · rw [applyVector_events]
        constructor
        · intro _
          exact ⟨by simp [hdl], rfl⟩
        · intro _
          exact ⟨s.mWidth, s.mHeight, by simp [hd]⟩

/- ### Claim C6 -/

/-- C6: when the stream refresh succeeds on its first pull and the stream's
current buffer is present with dimensions bw by bh, the single
texture-update call receives the opacity hint `!mBlend` and a force-filter
flag that is true exactly when the buffer dimensions differ from the
buffered layer width/height. -/
theorem c6_force_filter (s : DeferredLayerUpdater) (st : StreamState) (n : Int)
    (rest : List (Option Int)) (bw bh : Nat)
    (hst : s.mSurfaceTexture = some st) (hp : st.pulls = some n :: rest)
    (hb : st.buffer = some (bw, bh)) :
    (s.doUpdateTexImage).2 =
      [Event.updateTextureLayer s.mWidth s.mHeight (!s.mBlend)
        (decide (s.mWidth ≠ bw) || decide (s.mHeight ≠ bh)) st.target st.transformMatrix] ∧
    ((decide (s.mWidth ≠ bw) || decide (s.mHeight ≠ bh)) = true ↔
      (s.mWidth ≠ bw ∨ s.mHeight ≠ bh)) := by
  constructor
  · simp [DeferredLayerUpdater.doUpdateTexImage, hst, streamDrain, hp, hb]
  · simp

/-- C6 witness: the texture-update call at the concrete 5,6,6 stream whose
buffer matches the layer size. -/
theorem c6_witness :
    (sStream556.doUpdateTexImage).2 =
      [Event.updateTextureLayer sStream556.mWidth sStream556.mHeight (!sStream556.mBlend)
        (decide (sStream556.mWidth ≠ 100) || decide (sStream556.mHeight ≠ 100))
        st556.target st556.transformMatrix] ∧
    ((decide (sStream556.mWidth ≠ 100) || decide (sStream556.mHeight ≠ 100)) = true ↔
      (sStream556.mWidth ≠ 100 ∨ sStream556.mHeight ≠ 100)) :=
  c6_force_filter sStream556 st556 5 [some 6, some 6] 100 100 rfl rfl rfl

/- ### Claim C7 -/

/-- C7: if the very first pull of a stream refresh fails, that `apply()`
issues no texture-update call, yet the refresh flag is cleared and the
failed pull consumed; a second `apply()` without an intervening
`markStreamFrameAvailable` issues no texture update either and leaves the
stream untouched (no further refresh attempt). -/
theorem c7_first_pull_failure (res : Nat → Nat → Bool) (s : DeferredLayerUpdater)
    (st : StreamState) (rest : List (Option Int))
    (hdl : s.mDisplayList = none) (hst : s.mSurfaceTexture = some st)
    (hflag : s.mUpdateTexImage = true) (hpulls : st.pulls = none :: rest) :
    countTexUpdates (s.apply res).2.1 = 0 ∧
    (s.apply res).1.mUpdateTexImage = false ∧
    (s.apply res).1.mSurfaceTexture = some { st with pulls := rest } ∧
    countTexUpdates ((s.apply res).1.apply res).2.1 = 0 ∧
    ((s.apply res).1.apply res).1.mSurfaceTexture = (s.apply res).1.mSurfaceTexture := by
  have e1 := apply_stream_case res s st hdl hst
  obtain ⟨hS, hC⟩ := applyStream_firstFail s st rest hst hpulls hflag
  obtain ⟨g1, g2, g3, g4, g5, g6, g7, g8⟩ := applyStream_state s
  rw [e1]
  dsimp only
  have e2 := apply_stream_case res (s.applyStream).1 { st with pulls := rest }
    (g1.trans hdl) hS
  rw [e2]
  dsimp only
  obtain ⟨hS2, hC2⟩ := applyStream_noRefresh (s.applyStream).1 g4
  exact ⟨hC, g4, hS, hC2, hS2⟩

/-- C7 witness: the failed-first-pull refresh at the concrete stream with a
queued later frame. -/
theorem c7_witness :
    countTexUpdates (sStreamFail.apply (fun _ _ => true)).2.1 = 0 ∧
    (sStreamFail.apply (fun _ _ => true)).1.mUpdateTexImage = false :=
  ⟨(c7_first_pull_failure (fun _ _ => true) sStreamFail stFirstFail [some 7]
      rfl rfl rfl rfl).1,
   (c7_first_pull_failure (fun _ _ => true) sStreamFail stFirstFail [some 7]
      rfl rfl rfl rfl).2.1⟩

/- ### Claim C8 -/

theorem applyVector_events_vector (res : Nat → Nat → Bool) (s : DeferredLayerUpdater) :
    ∀ e ∈ (s.applyVector res).2.1, e.isVectorEvent = true := by
  intro e he
  rw [applyVector_events] at he
  rcases List.mem_append.1 he with h | h
  · cases hd : (s.mWidth != s.mLayer.width || s.mHeight != s.mLayer.height)
    · rw [hd] at h; simp at h
    · rw [hd] at h; simp at h; simp [h, Event.isVectorEvent]
  · simp at h
    rcases h with h | h | h <;> simp [h, Event.isVectorEvent]

/-- C8: every `apply()` call executes at most one content branch: with
vector content pending only vector-branch collaborator calls are emitted
and the stream state and its one-shot flags are untouched; the stream
branch emits only stream-branch calls and runs only when no vector content
is pending and a stream is set; with neither pending, no branch call is
emitted at all. -/
theorem c8_branch_exclusivity (s : DeferredLayerUpdater) (res : Nat → Nat → Bool) :
    (∀ dl, s.mDisplayList = some dl →
       (∀ e ∈ (s.apply res).2.1, e.isVectorEvent = true) ∧
       (s.apply res).1.mSurfaceTexture = s.mSurfaceTexture ∧
       (s.apply res).1.mNeedsGLContextAttach = s.mNeedsGLContextAttach ∧
       (s.apply res).1.mUpdateTexImage = s.mUpdateTexImage) ∧
    (∀ st, s.mDisplayList = none → s.mSurfaceTexture = some st →
       ∀ e ∈ (s.apply res).2.1, e.isStreamEvent = true) ∧
    (s.mDisplayList = none → s.mSurfaceTexture = none → (s.apply res).2.1 = []) := by
  refine ⟨?_, ?_, ?_⟩
  · intro dl hdl
    rw [apply_vector_case res s dl hdl]
    exact ⟨applyVector_events_vector res s, (applyVector_state res s).2.2.2.1,
           (applyVector_state res s).2.2.2.2.1, (applyVector_state res s).2.2.2.2.2⟩
  · intro st hdl hst
    rw [apply_stream_case res s st hdl hst]
    exact applyStream_events s
  · intro hdl hst
    rw [apply_none_case res s hdl hst]

/-- C8 witness: with vector content pending, the stream state and one-shot
flags are untouched at the concrete failed-resize scenario. -/
theorem c8_witness :
    (sFail.apply (fun _ _ => false)).1.mSurfaceTexture = sFail.mSurfaceTexture ∧
    (sFail.apply (fun _ _ => false)).1.mUpdateTexImage = sFail.mUpdateTexImage :=
  ⟨((c8_branch_exclusivity sFail (fun _ _ => false)).1 1 rfl).2.1,
   ((c8_branch_exclusivity sFail (fun _ _ => false)).1 1 rfl).2.2.2⟩

/- ### Claim C9 -/

/-- C9: whenever no vector content is pending — the external-stream branch
and the neither-branch no-op case alike — `apply()` returns true and never
requests a resize, whatever the buffered and current dimensions are. -/
theorem c9_no_failure_without_vector (s : DeferredLayerUpdater)
    (res : Nat → Nat → Bool) (h : s.mDisplayList = none) :
    (s.apply res).2.2 = true ∧
    ∀ w hh, Event.resizeLayer w hh ∉ (s.apply res).2.1 := by
  rcases hst : s.mSurfaceTexture with _ | st
  · rw [apply_none_case res s h hst]
    refine ⟨rfl, ?_⟩
    intro w hh hmem
    simp at hmem
  · rw [apply_stream_case res s st h hst]
    refine ⟨rfl, ?_⟩
    intro w hh hmem
    have h2 := applyStream_events s _ hmem
    simp [Event.isStreamEvent] at h2

/-- C9 witness: the no-content `apply()` returns true on the quiescent
state. -/
theorem c9_witness : (base.apply (fun _ _ => true)).2.2 = true :=
  (c9_no_failure_without_vector base (fun _ _ => true) rfl).1

/- ### Claim C10 -/

/-- A concrete stream with nothing queued. -/
def stEmpty : StreamState :=
  { pulls := [], current := 0, buffer := none, transformMatrix := 0, target := 0 }

/-- A concrete state with a stream set and a pending transform. -/
def sTransform : DeferredLayerUpdater :=
  { base with mSurfaceTexture := some stEmpty, mTransform := some 42 }

/-- C10: a pending transform is consumed (loaded into the layer and
cleared) exactly by the external-stream branch; when vector content is
pending, or when no stream has been set, `apply()` leaves the pending
transform unchanged so it carries over to later calls. -/
theorem c10_transform_consumption (s : DeferredLayerUpdater) (res : Nat → Nat → Bool) :
    (∀ st tf, s.mDisplayList = none → s.mSurfaceTexture = some st →
       s.mTransform = some tf →
       (s.apply res).1.mTransform = none ∧
       (s.apply res).1.mLayer.transform = tf ∧
       Event.loadTransform tf ∈ (s.apply res).2.1) ∧
    (∀ dl, s.mDisplayList = some dl → (s.apply res).1.mTransform = s.mTransform) ∧
    (s.mDisplayList = none → s.mSurfaceTexture = none →
       (s.apply res).1.mTransform = s.mTransform) := by
  refine ⟨?_, ?_, ?_⟩
  · intro st tf hdl hst htf
    rw [apply_stream_case res s st hdl hst]
    exact applyStream_transform s tf htf
  · intro dl hdl
    rw [apply_vector_case res s dl hdl]
    exact (applyVector_state res s).2.2.1
  · intro hdl hst
    rw [apply_none_case res s hdl hst]

/-- C10 witness: the pending transform is consumed at the concrete
stream-plus-transform state. -/
theorem c10_witness :
    (sTransform.apply (fun _ _ => true)).1.mTransform = none ∧
    (sTransform.apply (fun _ _ => true)).1.mLayer.transform = 42 :=
  ⟨((c10_transform_consumption sTransform (fun _ _ => true)).1 stEmpty 42 rfl rfl rfl).1,
   ((c10_transform_consumption sTransform (fun _ _ => true)).1 stEmpty 42 rfl rfl rfl).2.1⟩

end DLU
